import Mathlib

/-!
Verification of the UnityShop deployment/verification scripts.

We shallowly embed the Python scripts of the repository:
  scripts/deploy.py            (find_project_root, run_command)
  scripts/verify-structure.py  (root detection branch and marker while-loop)
  scripts/verify-cluster.py    (whole check sequence, port-forward blocks)
  scripts/verify-all.py        (env_checks loop, pod scan, HPA/metrics steps)
  scripts/smoke_test.py        (run helper)

Filesystem paths are lists of components measured from the filesystem
root (the empty list stands for "/", whose parent is itself, matching
`os.path` and `pathlib` semantics used by the scripts).  A filesystem
state is the is-directory predicate the scripts query.  Strings keep
Python semantics: `needle in hay` is contiguous-substring containment,
`str.splitlines` splits on newline dropping a trailing empty piece,
`str.lower`/`str.strip` are per-character maps/trims.  All definitions
are executable and structural so concrete runs evaluate by `decide`.
-/

/-- Python `needle in hay` on unpacked characters: `needle` occurs as a
contiguous sublist of `hay`. -/
def strContainsAux (needle : List Char) : List Char → Bool
  | [] => needle.isEmpty
  | c :: rest => needle.isPrefixOf (c :: rest) || strContainsAux needle rest

/-- Python substring test `needle in hay`. -/
def strContains (hay needle : String) : Bool :=
  strContainsAux needle.toList hay.toList

/-- Python `s.endswith(suffix)`. -/
def strEndsWith (s suf : String) : Bool :=
  suf.toList.reverse.isPrefixOf s.toList.reverse

/-- Python `chr.lower()` for ASCII, as used on the probe outputs. -/
def lowerChar (c : Char) : Char :=
  if 65 ≤ c.toNat ∧ c.toNat ≤ 90 then Char.ofNat (c.toNat + 32) else c

/-- Python `s.lower()`. -/
def pyLower (s : String) : String :=
  String.mk (s.toList.map lowerChar)

/-- Whitespace characters for `str.strip` as the scripts use it. -/
def isSpaceChar (c : Char) : Bool :=
  c = ' ' || c = '\n' || c = '\t' || c = '\r'

/-- Python `s.strip()`. -/
def pyStrip (s : String) : String :=
  String.mk (((s.toList.dropWhile isSpaceChar).reverse.dropWhile isSpaceChar).reverse)

/-- Helper for `pySplitlines`: cut a character list at newlines. -/
def splitLinesAux : List Char → List Char → List String
  | [], acc => [String.mk acc.reverse]
  | c :: rest, acc =>
    if c = '\n' then String.mk acc.reverse :: splitLinesAux rest []
    else splitLinesAux rest (c :: acc)

/-- Python `s.splitlines()` for newline-separated text: split on every
newline, then drop the trailing empty piece produced by a final newline
(so `"a\nb\n"` gives `["a", "b"]` and `""` gives `[]`). -/
def pySplitlines (s : String) : List String :=
  let parts := splitLinesAux s.toList []
  if parts.getLast? = some "" then parts.dropLast else parts

/-- A filesystem path, as the list of components below the filesystem
root; `[]` is the root `/` itself, `FPath.dropLast` is `os.path`'s parent
(the parent of the root is the root). -/
abbrev FPath := List String

/-- A filesystem state: which paths exist as directories (the only
query the root locators perform, via `os.path.isdir` / `FPath.is_dir`). -/
abbrev Fs := FPath → Bool

/-- `all((current / d).is_dir() for d in markers)`: every marker exists
as a directory directly under the candidate. -/
def hasMarkers (fs : Fs) (ms : List String) (p : FPath) : Bool :=
  ms.all (fun d => fs (p ++ [d]))

/-- The marker set of `find_project_root` in scripts/deploy.py
(`required_dirs`, four directories). -/
def deployMarkers : List String :=
  ["api-server", "charts", "monitoring", "scripts"]

/-- The marker set of the while-loop in scripts/verify-structure.py
(three directories; no "monitoring"). -/
def vsMarkers : List String :=
  ["api-server", "charts", "scripts"]

/-- The upward-walking root locator shared (up to the marker list) by
scripts/deploy.py and scripts/verify-structure.py: test the candidate,
else move to the parent; signal not-found (`none`) when the parent
equals the candidate, i.e. at the filesystem root. -/
def locateRoot (ms : List String) (fs : Fs) (p : FPath) : Option FPath :=
  if hasMarkers fs ms p then some p
  else
    match p with
    | [] => none
    | a :: rest => locateRoot ms fs ((a :: rest).dropLast)
termination_by p.length
decreasing_by
  simp [List.length_dropLast]

/-- `find_project_root` of scripts/deploy.py: the locator over its four
`required_dirs`; `none` models the raised `click.ClickException`. -/
def findProjectRoot (fs : Fs) (p : FPath) : Option FPath :=
  locateRoot deployMarkers fs p

/-- The `while True` marker-search branch of scripts/verify-structure.py
(the not-`FOUND` fallthrough prints an error and exits 1, modelled as
`none`). -/
def vsLocateLoop (fs : Fs) (p : FPath) : Option FPath :=
  locateRoot vsMarkers fs p

/-- `CURRENT_DIR.endswith("scripts")` in scripts/verify-structure.py:
the absolute path string ends with "scripts", i.e. its last component
does (the needle has no separator, and the root path has no component). -/
def pathEndsWithScripts (p : FPath) : Bool :=
  match p.getLast? with
  | some c => strEndsWith c "scripts"
  | none => false

/-- The full root detection of scripts/verify-structure.py: if the
directory holding the script ends in "scripts", unconditionally take the
parent; otherwise run the upward marker search. -/
def vsDetectRoot (fs : Fs) (currentDir : FPath) : Option FPath :=
  if pathEndsWithScripts currentDir then some currentDir.dropLast
  else vsLocateLoop fs currentDir

/-- `l.dropLast` is the first `l.length - 1` elements. -/
theorem dropLast_is_take : ∀ (l : List α), l.dropLast = l.take (l.length - 1)
  | [] => rfl
  | [_] => rfl
  | a :: b :: t => by
    have ih := dropLast_is_take (b :: t)
    simp only [List.dropLast_cons₂, List.length_cons, ih]
    rfl

/-- Unfold the locator at a marker-satisfying candidate. -/
theorem locateRoot_self (ms : List String) (fs : Fs) (p : FPath)
    (h : hasMarkers fs ms p = true) : locateRoot ms fs p = some p := by
  rw [locateRoot.eq_def]
  simp [h]

/-- Taking at most `l.length - 1` elements ignores a `dropLast`. -/
theorem take_dropLast (l : List α) (k : Nat) (hk : k ≤ l.length - 1) :
    l.dropLast.take k = l.take k := by
  rw [dropLast_is_take, List.take_take, min_eq_left hk]

/-- The locator returns the longest marker-satisfying proper prefix of
the start, when that prefix dominates every marker-satisfying prefix. -/
theorem locateRoot_nearest_aux (ms : List String) (fs : Fs) :
    ∀ n (p : FPath), p.length = n → ∀ k, k < p.length →
      hasMarkers fs ms (p.take k) = true →
      (∀ j, j ≤ p.length → hasMarkers fs ms (p.take j) = true → j ≤ k) →
      locateRoot ms fs p = some (p.take k) := by
  intro n
  induction n using Nat.strong_induction_on with
  | _ n ih =>
    intro p hp k hk hm hmax
    have hptop : hasMarkers fs ms p = false := by
      cases hb : hasMarkers fs ms p with
      | false => rfl
      | true =>
        have hle := hmax p.length le_rfl (by simpa [List.take_length] using hb)
        omega
    cases p with
    | nil => simp at hk
    | cons a rest =>
      rw [locateRoot.eq_def]
      simp only [hptop, Bool.false_eq_true, if_false]
      have hlen : (a :: rest).length = rest.length + 1 := rfl
      have hkr : k ≤ rest.length := by
        rw [hlen] at hk; omega
      rcases Nat.lt_or_ge k rest.length with hklt | hkge
      · -- the hit is strictly above the parent: recurse
        have hplen : ((a :: rest).dropLast).length = rest.length := by
          simp [List.length_dropLast]
        rw [(take_dropLast (a :: rest) k (by rw [hlen]; omega)).symm]
        apply ih rest.length (by omega) _ hplen k (by rw [hplen]; omega)
        · rw [take_dropLast _ k (by rw [hlen]; omega)]
          exact hm
        · intro j hj hmj
          rw [hplen] at hj
          rw [take_dropLast _ j (by rw [hlen]; omega)] at hmj
          exact hmax j (by rw [hlen]; omega) hmj
      · -- the hit is the parent itself
        have hkeq : k = rest.length := by omega
        have hdt : (a :: rest).dropLast = (a :: rest).take k := by
          rw [dropLast_is_take, hlen, hkeq, Nat.add_sub_cancel]
        rw [hdt]
        exact locateRoot_self ms fs _ hm

/-- The locator returns `none` when no prefix of the start (the start
itself included) satisfies the markers. -/
theorem locateRoot_none_aux (ms : List String) (fs : Fs) :
    ∀ n (p : FPath), p.length = n →
      (∀ j, j ≤ p.length → hasMarkers fs ms (p.take j) = false) →
      locateRoot ms fs p = none := by
  intro n
  induction n using Nat.strong_induction_on with
  | _ n ih =>
    intro p hp hall
    have hptop : hasMarkers fs ms p = false := by
      simpa [List.take_length] using hall p.length le_rfl
    rw [locateRoot.eq_def]
    simp only [hptop, Bool.false_eq_true, if_false]
    cases p with
    | nil => rfl
    | cons a rest =>
      have hlen : (a :: rest).length = rest.length + 1 := rfl
      have hplen : ((a :: rest).dropLast).length = rest.length := by
        simp [List.length_dropLast]
      apply ih rest.length (by rw [hlen] at hp; omega) _ hplen
      intro j hj
      rw [hplen] at hj
      rw [take_dropLast _ j (by rw [hlen]; omega)]
      exact hall j (by rw [hlen]; omega)

/-- C2: for every starting directory strictly inside a valid project
tree — the nearest marker-satisfying ancestor is a proper prefix of the
start and dominates every marker-satisfying prefix — the locator
(`find_project_root` of deploy.py, and the while-loop of
verify-structure.py over its own markers) returns exactly that nearest
ancestor. -/
theorem root_locator_nearest_ancestor :
    (∀ (fs : Fs) (start : FPath) (k : Nat), k < start.length →
       hasMarkers fs deployMarkers (start.take k) = true →
       (∀ j, j ≤ start.length → hasMarkers fs deployMarkers (start.take j) = true → j ≤ k) →
       findProjectRoot fs start = some (start.take k))
  ∧ (∀ (fs : Fs) (start : FPath) (k : Nat), k < start.length →
       hasMarkers fs vsMarkers (start.take k) = true →
       (∀ j, j ≤ start.length → hasMarkers fs vsMarkers (start.take j) = true → j ≤ k) →
       vsLocateLoop fs start = some (start.take k)) := by
  constructor
  · intro fs start k hk hm hmax
    exact locateRoot_nearest_aux deployMarkers fs start.length start rfl k hk hm hmax
  · intro fs start k hk hm hmax
    exact locateRoot_nearest_aux vsMarkers fs start.length start rfl k hk hm hmax

/-- The spec example tree, `/proj/{api-server,charts,monitoring,scripts}`
with the start below `/proj/scripts`. -/
def fsProj : Fs := fun p =>
  [["proj"], ["proj", "api-server"], ["proj", "charts"], ["proj", "monitoring"],
   ["proj", "scripts"], ["proj", "scripts", "sub"]].contains p

/-- C2 witness: starting at `/proj/scripts/sub` inside the example tree
returns `/proj`. -/
theorem root_locator_nearest_ancestor_witness :
    findProjectRoot fsProj ["proj", "scripts", "sub"] = some ["proj"] := by
  have h := root_locator_nearest_ancestor.1 fsProj ["proj", "scripts", "sub"] 1
    (by decide) (by decide) (by decide)
  simpa using h

/-- C3: started outside any valid project tree — no prefix of the start
satisfies the markers — the locator terminates and signals not-found
(`none`, i.e. the raised `ClickException` in deploy.py and the
error-and-exit-1 branch of verify-structure.py); the walk stops exactly
when the parent of the candidate equals the candidate, at the
filesystem root.  Termination holds by construction: `locateRoot` is a
total function. -/
theorem root_locator_outside_not_found :
    (∀ (fs : Fs) (start : FPath),
       (∀ j, j ≤ start.length → hasMarkers fs deployMarkers (start.take j) = false) →
       findProjectRoot fs start = none)
  ∧ (∀ (fs : Fs) (start : FPath),
       (∀ j, j ≤ start.length → hasMarkers fs vsMarkers (start.take j) = false) →
       vsLocateLoop fs start = none) := by
  constructor
  · intro fs start hall
    exact locateRoot_none_aux deployMarkers fs start.length start rfl hall
  · intro fs start hall
    exact locateRoot_none_aux vsMarkers fs start.length start rfl hall

/-- C3 witness: on an empty filesystem the locator reports not-found. -/
theorem root_locator_outside_not_found_witness :
    findProjectRoot (fun _ => false) ["home", "user"] = none :=
  root_locator_outside_not_found.1 (fun _ => false) ["home", "user"] (by decide)

/-- A tree whose root `/proj` has api-server, charts and scripts but no
monitoring directory. -/
def fsThreeMarkers : Fs := fun p =>
  [["proj"], ["proj", "api-server"], ["proj", "charts"], ["proj", "scripts"],
   ["proj", "sub"]].contains p

/-- C9: the two root locators are not equivalent: deploy.py requires the
four markers api-server, charts, monitoring, scripts while
verify-structure.py requires only three, so on a tree whose root lacks
only `monitoring` the verify-structure loop finds the root while
`find_project_root` signals not-found. -/
theorem locators_not_equivalent :
    deployMarkers = ["api-server", "charts", "monitoring", "scripts"]
  ∧ vsMarkers = ["api-server", "charts", "scripts"]
  ∧ vsLocateLoop fsThreeMarkers ["proj", "sub"] = some ["proj"]
  ∧ findProjectRoot fsThreeMarkers ["proj", "sub"] = none := by
  refine ⟨rfl, rfl, ?_, ?_⟩
  · have h := locateRoot_nearest_aux vsMarkers fsThreeMarkers 2 ["proj", "sub"] rfl 1
      (by decide) (by decide) (by decide)
    simpa using h
  · exact locateRoot_none_aux deployMarkers fsThreeMarkers 2 ["proj", "sub"] rfl (by decide)

/-- C10: whenever the directory holding verify-structure.py has a path
ending in "scripts", the marker search is skipped and the parent
directory is returned unconditionally, whatever the filesystem contains
(in particular with none of the marker directories present). -/
theorem scripts_suffix_shortcut (fs : Fs) (d : FPath)
    (h : pathEndsWithScripts d = true) :
    vsDetectRoot fs d = some d.dropLast := by
  simp [vsDetectRoot, h]

/-- C10 witness: from `/home/proj/scripts` on a filesystem with no
directories at all, the detector still returns `/home/proj`. -/
theorem scripts_suffix_shortcut_witness :
    vsDetectRoot (fun _ => false) ["home", "proj", "scripts"] = some ["home", "proj"] := by
  have h := scripts_suffix_shortcut (fun _ => false) ["home", "proj", "scripts"] (by decide)
  simpa using h

/-- Severity of a printed status line, following the tags and colors the
scripts use: green [OK], red [FAIL], yellow [WARN], red [ISSUE] for the
per-pod unhealthy lines, and plain informational output. -/
inductive Sev where
  | ok
  | fail
  | warn
  | issue
  | info
deriving DecidableEq

/-- A printed status line: severity tag plus text. -/
structure Msg where
  sev : Sev
  text : String
deriving DecidableEq

/-- Outcome of one wrapped external command used as an HTTP probe:
it returns output, raises `CalledProcessError` carrying output, or
raises some other exception. -/
inductive ProbeOutcome where
  | ok (out : String)
  | cpe (out : String)
  | exc
deriving DecidableEq

/-- `run(cmd, capture=True)` of scripts/verify-cluster.py: returns the
output, converts a `CalledProcessError` into its `e.output`, and lets
any other exception propagate (`none`). -/
def runCaptureVC : ProbeOutcome → Option String
  | .ok o => some o
  | .cpe o => some o
  | .exc => none

/-- `run(cmd)` of scripts/verify-all.py: a bare `except` returns the
empty string on every exception, so it never raises. -/
def runVA : ProbeOutcome → String
  | .ok o => o
  | .cpe _ => ""
  | .exc => ""

/-- The fixed bad-state list shared by scripts/verify-cluster.py and
scripts/verify-all.py. -/
def badStates : List String :=
  ["CrashLoopBackOff", "Error", "ImagePullBackOff", "Pending", "Terminating", "Evicted"]

/-- `any(state in line for state in bad_states)`. -/
def lineBad (line : String) : Bool :=
  badStates.any (fun s => strContains line s)

/-- The per-line pod scan of both scripts: the pod-listing lines that
mention a bad state. -/
def vcIssueLines (podsOut : String) : List String :=
  (pySplitlines podsOut).filter lineBad

/-- The external-world inputs of one scripts/verify-cluster.py run: the
captured outputs of the kubectl queries and the outcomes of the two
curl probes behind the port-forwards. -/
structure ClusterEnv where
  nsOut : String
  podsOut : String
  apiProbe : ProbeOutcome
  webProbe : ProbeOutcome
  hpaOut : String
deriving DecidableEq

/-- How a script run ends: `sys.exit(code)`, an uncaught exception, or
falling off the end of the module (process exit code 0); each carries
the status lines printed up to that point. -/
inductive Outcome where
  | exited (code : Nat) (msgs : List Msg)
  | uncaught (msgs : List Msg)
  | finished (msgs : List Msg)
deriving DecidableEq

/-- The process exit code of an `Outcome` (none when an uncaught
exception ends the interpreter instead of an explicit exit). -/
def exitCode : Outcome → Option Nat
  | .exited c _ => some c
  | .uncaught _ => none
  | .finished _ => some 0

/-- The status lines an `Outcome` carries. -/
def msgsOf : Outcome → List Msg
  | .exited _ m => m
  | .uncaught m => m
  | .finished m => m

/-- Namespace check condition of scripts/verify-cluster.py:
`"NotFound" in ns_output or "No resources" in ns_output`. -/
def nsMissingVC (nsOut : String) : Bool :=
  strContains nsOut "NotFound" || strContains nsOut "No resources"

/-- The whole check sequence of scripts/verify-cluster.py: namespace,
pod status (with the bad-state scan remembered in `failed`), API health
behind a port-forward, Web UI health behind a port-forward, HPA
presence, final summary.  Only the namespace and no-pods checks call
`sys.exit(1)`; every later verdict merely prints.  An exception from a
curl probe propagates uncaught. -/
def verifyCluster (e : ClusterEnv) : Outcome :=
  if nsMissingVC e.nsOut then
    Outcome.exited 1 [⟨Sev.fail, "Namespace unityexpress does not exist."⟩]
  else
    let m1 : List Msg := [⟨Sev.ok, "Namespace exists."⟩]
    if strContains e.podsOut "No resources found" then
      Outcome.exited 1 (m1 ++ [⟨Sev.fail, "No pods found in namespace unityexpress."⟩])
    else
      let issues := vcIssueLines e.podsOut
      let failed := !issues.isEmpty
      let m2 := m1 ++ issues.map (fun l => ⟨Sev.issue, l⟩)
        ++ (if failed then [] else [⟨Sev.ok, "All pods are running normally."⟩])
      match runCaptureVC e.apiProbe with
      | none => Outcome.uncaught m2
      | some apiOut =>
        let m3 := m2 ++ [if strContains (pyLower apiOut) "ok" then
            ⟨Sev.ok, "API Health"⟩ else ⟨Sev.fail, "API health check failed"⟩]
        match runCaptureVC e.webProbe with
        | none => Outcome.uncaught m3
        | some webOut =>
          let m4 := m3 ++ [if strContains (pyLower webOut) "<html" then
              ⟨Sev.ok, "Web UI responded successfully."⟩
            else ⟨Sev.warn, "Web UI returned unexpected response"⟩]
          let m5 := m4 ++ [if strContains e.hpaOut "No resources" then
              ⟨Sev.fail, "No HPA found."⟩ else ⟨Sev.ok, "HPA is present."⟩]
          let m6 := m5 ++ (if failed then
              [⟨Sev.warn, "Some pods reported issues. Review logs above."⟩] else [])
            ++ [⟨Sev.ok, "Cluster validation complete!"⟩]
          Outcome.finished m6

/-- One entry of the `env_checks` table of scripts/verify-all.py:
a label, the command to run, and the token expected in its output. -/
structure EnvCheck where
  label : String
  cmd : String
  expect : String
deriving DecidableEq

/-- The `env_checks` table of scripts/verify-all.py, in declared order. -/
def envChecksList : List EnvCheck :=
  [⟨"Minikube", "minikube status", "Running"⟩,
   ⟨"kubectl", "kubectl version --client", "Client"⟩,
   ⟨"Kubernetes API", "kubectl get nodes", "Ready"⟩,
   ⟨"Docker", "minikube ssh docker info", "Server"⟩,
   ⟨"Helm", "helm version", "version"⟩]

/-- The `for label, cmd, expect in env_checks` loop of
scripts/verify-all.py: print ok and continue while the expected token
appears in the command output, otherwise print fail and `sys.exit(1)`
at once.  The environment maps each command to the output `run`
returns for it (the empty string when the command raised). -/
def runEnvChecks (env : String → String) : List EnvCheck → List Msg × Option Nat
  | [] => ([], none)
  | c :: rest =>
    if strContains (env c.cmd) c.expect then
      let r := runEnvChecks env rest
      (⟨Sev.ok, c.label⟩ :: r.1, r.2)
    else ([⟨Sev.fail, c.label⟩], some 1)

/-- The pod-health section of scripts/verify-all.py (section 2): exit 1
when no pods are listed; scan every line for a bad state; on any hit,
print fail, list the offending lines and exit 1; otherwise continue. -/
def vaPodCheck (podsOut : String) : Outcome :=
  if strContains podsOut "No resources" then
    Outcome.exited 1 [⟨Sev.fail, "No pods found"⟩]
  else
    let m1 : List Msg := [⟨Sev.ok, "Pods detected"⟩]
    let issues := vcIssueLines podsOut
    if !issues.isEmpty then
      Outcome.exited 1 (m1 ++ [⟨Sev.fail, "Unhealthy pod(s) detected"⟩]
        ++ issues.map (fun l => ⟨Sev.info, l⟩))
    else
      Outcome.finished (m1 ++ [⟨Sev.ok, "All pods healthy"⟩])

/-- Section 7 of scripts/verify-all.py: the HPA presence check followed
by the custom-metrics check; neither exits, so the metrics check always
runs whatever the HPA check printed. -/
def vaHpaMetrics (hpaOut metricsOut : String) : List Msg :=
  (if strContains hpaOut "No resources" then
      [⟨Sev.fail, "HPA missing"⟩]
    else [⟨Sev.ok, "HPA exists"⟩])
  ++ [if strContains metricsOut "request_latency_seconds" then
      ⟨Sev.ok, "Latency metric registered"⟩
    else ⟨Sev.fail, "Latency metric missing"⟩]

/-- How a call of `run` in scripts/smoke_test.py ends: the process exits
1, or the stripped stdout is returned. -/
inductive RunOutcome where
  | exits (code : Nat)
  | returns (out : String)
deriving DecidableEq

/-- The `run` helper of scripts/smoke_test.py: on a non-zero return
code print the error and `sys.exit(1)`, else return `stdout.strip()`. -/
def smokeRun (returncode : Nat) (stdout : String) : RunOutcome :=
  if returncode ≠ 0 then RunOutcome.exits 1 else RunOutcome.returns (pyStrip stdout)

/-- What one port-forward-based check block did: how many times it
called `.terminate()` on the forwarding process it launched, whether it
ended in an uncaught exception, and the verdict line it printed. -/
structure PfBlock where
  terminations : Nat
  raised : Bool
  msg : Option Msg
deriving DecidableEq

/-- The API health block of scripts/verify-cluster.py (Popen the
port-forward, sleep, probe via `run(..., capture=True)`, print the
verdict, then `api_pf.terminate()`).  There is no try/finally: when the
probe raises, the block is abandoned before the terminate call. -/
def apiBlockVC (probe : ProbeOutcome) : PfBlock :=
  match runCaptureVC probe with
  | none => ⟨0, true, none⟩
  | some out =>
    ⟨1, false, some (if strContains (pyLower out) "ok" then
        ⟨Sev.ok, "API Health"⟩ else ⟨Sev.fail, "API health check failed"⟩)⟩

/-- The Web UI health block of scripts/verify-cluster.py, same shape as
the API one with the `<html` verdict and a warning on mismatch. -/
def webBlockVC (probe : ProbeOutcome) : PfBlock :=
  match runCaptureVC probe with
  | none => ⟨0, true, none⟩
  | some out =>
    ⟨1, false, some (if strContains (pyLower out) "<html" then
        ⟨Sev.ok, "Web UI responded successfully."⟩
      else ⟨Sev.warn, "Web UI returned unexpected response"⟩)⟩

/-- The API health block of scripts/verify-all.py: its `run` swallows
every exception, so control always reaches `api_pf.terminate()`. -/
def apiBlockVA (probe : ProbeOutcome) : PfBlock :=
  let out := runVA probe
  ⟨1, false, some (if strContains (pyLower out) "ok" then
      ⟨Sev.ok, "API health"⟩ else ⟨Sev.fail, "API health"⟩)⟩

/-- The Web UI block of scripts/verify-all.py, likewise always reaching
`web_pf.terminate()`. -/
def webBlockVA (probe : ProbeOutcome) : PfBlock :=
  let out := runVA probe
  ⟨1, false, some (if strContains (pyLower out) "<html" then
      ⟨Sev.ok, "Web UI"⟩ else ⟨Sev.fail, "Web UI"⟩)⟩

/-- C1: the port-forward blocks do NOT terminate their forwarding
process on every exit path.  In scripts/verify-cluster.py the probe sits
between `Popen` and `.terminate()` with no try/finally, so a probe
exception other than `CalledProcessError` abandons the block before the
terminate call (terminations = 0) — the code contradicts the spec
contract that release happens even when the probe raises.  On every
non-raising path both blocks terminate exactly once, and in
scripts/verify-all.py the bare-except `run` never raises, so its blocks
always terminate exactly once. -/
theorem port_forward_terminate_paths :
    (apiBlockVC ProbeOutcome.exc).terminations = 0
  ∧ (apiBlockVC ProbeOutcome.exc).raised = true
  ∧ (∀ p, (apiBlockVC p).terminations = if p = ProbeOutcome.exc then 0 else 1)
  ∧ (∀ p, (webBlockVC p).terminations = if p = ProbeOutcome.exc then 0 else 1)
  ∧ (∀ p, (apiBlockVA p).terminations = 1)
  ∧ (∀ p, (webBlockVA p).terminations = 1) := by
  refine ⟨rfl, rfl, ?_, ?_, ?_, ?_⟩ <;>
    intro p <;> cases p <;>
    simp [apiBlockVC, webBlockVC, apiBlockVA, webBlockVA, runCaptureVC, runVA]

/-- C4: checks run strictly in declared order and a fatal failure halts
the pipeline at once: in the env_checks loop of scripts/verify-all.py,
when every check before `c` passes and `c` fails, the printed trace is
exactly the ok lines of the earlier checks followed by the fail line of
`c`, with exit code 1 — nothing after `c` runs; likewise the missing-
namespace fatal check of scripts/verify-cluster.py exits 1 with no
later check output. -/
theorem checks_ordered_halt_on_fatal :
    (∀ (env : String → String) (pre post : List EnvCheck) (c : EnvCheck),
       (∀ x ∈ pre, strContains (env x.cmd) x.expect = true) →
       strContains (env c.cmd) c.expect = false →
       runEnvChecks env (pre ++ c :: post) =
         (pre.map (fun x => Msg.mk Sev.ok x.label) ++ [Msg.mk Sev.fail c.label], some 1))
  ∧ (∀ e : ClusterEnv, nsMissingVC e.nsOut = true →
       verifyCluster e = Outcome.exited 1 [Msg.mk Sev.fail "Namespace unityexpress does not exist."]) := by
  constructor
  · intro env pre post c
    induction pre with
    | nil =>
      intro _ hc
      simp [runEnvChecks, hc]
    | cons x xs ih =>
      intro hpre hc
      have hx := hpre x (List.mem_cons_self x xs)
      have ih2 := ih (fun y hy => hpre y (List.mem_cons_of_mem x hy)) hc
      simp [runEnvChecks, hx, ih2]
  · intro e he
    simp [verifyCluster, he]

/-- Environment for the C4 witness: only the Minikube command produces
its expected token; every other command returns nothing. -/
def envStub : String → String :=
  fun s => if s = "minikube status" then "minikube: Running" else ""

/-- C4 witness: with Minikube healthy and kubectl broken, the suite
prints ok for Minikube, fail for kubectl, exits 1, and never reaches
the Kubernetes API, Docker or Helm checks. -/
theorem checks_ordered_halt_on_fatal_witness :
    runEnvChecks envStub envChecksList =
      ([Msg.mk Sev.ok "Minikube", Msg.mk Sev.fail "kubectl"], some 1) := by
  have h := checks_ordered_halt_on_fatal.1 envStub
    [⟨"Minikube", "minikube status", "Running"⟩]
    [⟨"Kubernetes API", "kubectl get nodes", "Ready"⟩,
     ⟨"Docker", "minikube ssh docker info", "Server"⟩,
     ⟨"Helm", "helm version", "version"⟩]
    ⟨"kubectl", "kubectl version --client", "Client"⟩
    (by decide) (by decide)
  simpa [envChecksList] using h

/-- A verify-cluster environment where everything is healthy except the
API health probe, whose curl fails and whose captured output is empty. -/
def envApiDown : ClusterEnv :=
  ⟨"unityexpress Active 5m",
   "unityexpress-api-abc 1/1 Running 0 5m",
   ProbeOutcome.cpe "",
   ProbeOutcome.ok "<html><body>hi</body></html>",
   "unityexpress-api Deployment 1 1 1 5m"⟩

/-- C5 counterexample: a verify-cluster.py run in which the API health
check fails still exits 0, refuting that the exit code is 0 exactly
when every check passed. -/
theorem exit_zero_with_failed_check_cx :
    exitCode (verifyCluster envApiDown) = some 0
  ∧ (msgsOf (verifyCluster envApiDown)).contains
      (Msg.mk Sev.fail "API health check failed") = true := by
  decide

/-- C5 amended: the exit code of verify-cluster.py is 1 exactly on its
fatal failures — missing namespace or no pods listed — and 0 otherwise,
even when non-fatal checks (API, Web, HPA, per-pod states) fail or
warn; and the smoke_test.py run helper exits 1 exactly on a wrapped
command failure. -/
theorem exit_code_fatal_only :
    (∀ e : ClusterEnv, e.apiProbe ≠ ProbeOutcome.exc → e.webProbe ≠ ProbeOutcome.exc →
       exitCode (verifyCluster e) =
         some (if nsMissingVC e.nsOut || strContains e.podsOut "No resources found"
           then 1 else 0))
  ∧ (∀ (rc : Nat) (out : String), rc ≠ 0 → smokeRun rc out = RunOutcome.exits 1)
  ∧ (∀ out : String, smokeRun 0 out = RunOutcome.returns (pyStrip out)) := by
  refine ⟨?_, ?_, ?_⟩
  · intro e ha hw
    obtain ⟨ns, pods, api, web, hpa⟩ := e
    cases h1 : nsMissingVC ns with
    | true => simp [verifyCluster, h1, exitCode]
    | false =>
      cases h2 : strContains pods "No resources found" with
      | true => simp [verifyCluster, h1, h2, exitCode]
      | false =>
        cases api with
        | exc => exact absurd rfl ha
        | ok o =>
          cases web with
          | exc => exact absurd rfl hw
          | ok w => simp [verifyCluster, h1, h2, exitCode, runCaptureVC]
          | cpe w => simp [verifyCluster, h1, h2, exitCode, runCaptureVC]
        | cpe o =>
          cases web with
          | exc => exact absurd rfl hw
          | ok w => simp [verifyCluster, h1, h2, exitCode, runCaptureVC]
          | cpe w => simp [verifyCluster, h1, h2, exitCode, runCaptureVC]
  · intro rc out hrc
    simp [smokeRun, hrc]
  · intro out
    simp [smokeRun]

/-- A fully healthy verify-cluster environment. -/
def envAllGood : ClusterEnv :=
  ⟨"unityexpress Active 5m",
   "unityexpress-api-abc 1/1 Running 0 5m",
   ProbeOutcome.ok "status ok",
   ProbeOutcome.ok "<html><body>hi</body></html>",
   "unityexpress-api Deployment 1 1 1 5m"⟩

/-- C5 witness: the healthy environment exits 0, and a failing wrapped
command makes the smoke-test helper exit 1. -/
theorem exit_code_fatal_only_witness :
    exitCode (verifyCluster envAllGood) = some 0
  ∧ smokeRun 2 "boom" = RunOutcome.exits 1 := by
  constructor
  · exact (exit_code_fatal_only.1 envAllGood (by decide) (by decide)).trans (by decide)
  · exact exit_code_fatal_only.2.1 2 "boom" (by decide)

/-- A verify-cluster environment with one pod in CrashLoopBackOff and
everything else healthy. -/
def envCrashPod : ClusterEnv :=
  ⟨"unityexpress Active 5m",
   "unityexpress-api-abc 0/1 CrashLoopBackOff 7 5m",
   ProbeOutcome.ok "status ok",
   ProbeOutcome.ok "<html><body>hi</body></html>",
   "unityexpress-api Deployment 1 1 1 5m"⟩

/-- C6 counterexample: verify-cluster.py names the CrashLoopBackOff pod
line in its detail output but does not treat it as fatal — the run
continues and the process exits 0. -/
theorem pod_bad_state_not_fatal_cx :
    (vcIssueLines envCrashPod.podsOut).length = 1
  ∧ (msgsOf (verifyCluster envCrashPod)).contains
      (Msg.mk Sev.issue "unityexpress-api-abc 0/1 CrashLoopBackOff 7 5m") = true
  ∧ exitCode (verifyCluster envCrashPod) = some 0 := by
  decide

/-- C6 amended: a pod-listing line in a bad state is named in the
detail output of both scans and produces a FAIL verdict; verify-all.py
treats it as fatal (exits 1), while verify-cluster.py only flags the
line and its run continues to exit 0. -/
theorem pod_bad_state_reported (podsOut line : String)
    (hline : line ∈ pySplitlines podsOut)
    (hbad : lineBad line = true)
    (hnr : strContains podsOut "No resources" = false) :
    (∃ ms, vaPodCheck podsOut = Outcome.exited 1 ms ∧ Msg.mk Sev.info line ∈ ms)
  ∧ Msg.mk Sev.fail "Unhealthy pod(s) detected" ∈ msgsOf (vaPodCheck podsOut)
  ∧ line ∈ vcIssueLines podsOut := by
  have hmem : line ∈ vcIssueLines podsOut := List.mem_filter.mpr ⟨hline, hbad⟩
  have hne : vcIssueLines podsOut ≠ [] := List.ne_nil_of_mem hmem
  have hemp : (vcIssueLines podsOut).isEmpty = false := by
    cases h : (vcIssueLines podsOut).isEmpty
    · rfl
    · exact absurd (List.isEmpty_iff.mp h) hne
  have hva : vaPodCheck podsOut =
      Outcome.exited 1 ([Msg.mk Sev.ok "Pods detected"]
        ++ [Msg.mk Sev.fail "Unhealthy pod(s) detected"]
        ++ (vcIssueLines podsOut).map (fun l => Msg.mk Sev.info l)) := by
    simp [vaPodCheck, hnr, hemp]
  refine ⟨⟨_, hva, ?_⟩, ?_, hmem⟩
  · simp only [List.mem_append]
    exact Or.inr (List.mem_map_of_mem _ hmem)
  · rw [hva]
    simp [msgsOf]

/-- C6 witness: a two-line pod listing with one CrashLoopBackOff line
makes the verify-all pod check exit fatally and name the line. -/
theorem pod_bad_state_reported_witness :
    Msg.mk Sev.fail "Unhealthy pod(s) detected"
      ∈ msgsOf (vaPodCheck "api-1 1/1 Running 0 5m\nworker-2 0/1 CrashLoopBackOff 7 5m") := by
  have h := pod_bad_state_reported
    "api-1 1/1 Running 0 5m\nworker-2 0/1 CrashLoopBackOff 7 5m"
    "worker-2 0/1 CrashLoopBackOff 7 5m"
    (by decide) (by decide) (by decide)
  exact h.2.1

/-- A verify-cluster environment that is healthy except that no HPA
resource exists. -/
def envNoHpa : ClusterEnv :=
  ⟨"unityexpress Active 5m",
   "unityexpress-api-abc 1/1 Running 0 5m",
   ProbeOutcome.ok "status ok",
   ProbeOutcome.ok "<html><body>hi</body></html>",
   "No resources found in unityexpress namespace."⟩

/-- C7 counterexample: with the HPA absent, verify-cluster.py prints a
FAIL-severity line for it and no warning-severity line at all in the
run, refuting that the absence is reported as a warning (it is
non-fatal though: the run exits 0). -/
theorem hpa_absence_reported_as_fail_cx :
    (msgsOf (verifyCluster envNoHpa)).contains (Msg.mk Sev.fail "No HPA found.") = true
  ∧ (msgsOf (verifyCluster envNoHpa)).all (fun m => !(m.sev == Sev.warn)) = true
  ∧ exitCode (verifyCluster envNoHpa) = some 0 := by
  decide

/-- C7 amended: absence of the autoscaling resource is non-fatal — the
pipeline continues past the HPA check (the final summary still prints,
the exit code stays 0, and in verify-all.py the metrics check still
runs) — but the absence is reported with a FAIL message, not a
warning, in both scripts. -/
theorem hpa_absence_nonfatal (e : ClusterEnv)
    (ha : e.apiProbe ≠ ProbeOutcome.exc) (hw : e.webProbe ≠ ProbeOutcome.exc)
    (hns : nsMissingVC e.nsOut = false)
    (hp : strContains e.podsOut "No resources found" = false)
    (hh : strContains e.hpaOut "No resources" = true) :
    Msg.mk Sev.fail "No HPA found." ∈ msgsOf (verifyCluster e)
  ∧ Msg.mk Sev.ok "Cluster validation complete!" ∈ msgsOf (verifyCluster e)
  ∧ exitCode (verifyCluster e) = some 0
  ∧ (∀ hpaOut metricsOut, strContains hpaOut "No resources" = true →
       vaHpaMetrics hpaOut metricsOut =
         Msg.mk Sev.fail "HPA missing" ::
           [if strContains metricsOut "request_latency_seconds" then
              Msg.mk Sev.ok "Latency metric registered"
            else Msg.mk Sev.fail "Latency metric missing"]) := by
  obtain ⟨ns, pods, api, web, hpa⟩ := e
  simp only at ha hw hns hp hh
  refine ⟨?_, ?_, ?_, ?_⟩
  · cases api with
    | exc => exact absurd rfl ha
    | ok o =>
      cases web with
      | exc => exact absurd rfl hw
      | ok w => simp [verifyCluster, hns, hp, hh, msgsOf, runCaptureVC, exitCode]
      | cpe w => simp [verifyCluster, hns, hp, hh, msgsOf, runCaptureVC, exitCode]
    | cpe o =>
      cases web with
      | exc => exact absurd rfl hw
      | ok w => simp [verifyCluster, hns, hp, hh, msgsOf, runCaptureVC, exitCode]
      | cpe w => simp [verifyCluster, hns, hp, hh, msgsOf, runCaptureVC, exitCode]
  · cases api with
    | exc => exact absurd rfl ha
    | ok o =>
      cases web with
      | exc => exact absurd rfl hw
      | ok w => simp [verifyCluster, hns, hp, hh, msgsOf, runCaptureVC, exitCode]
      | cpe w => simp [verifyCluster, hns, hp, hh, msgsOf, runCaptureVC, exitCode]
    | cpe o =>
      cases web with
      | exc => exact absurd rfl hw
      | ok w => simp [verifyCluster, hns, hp, hh, msgsOf, runCaptureVC, exitCode]
      | cpe w => simp [verifyCluster, hns, hp, hh, msgsOf, runCaptureVC, exitCode]
  · cases api with
    | exc => exact absurd rfl ha
    | ok o =>
      cases web with
      | exc => exact absurd rfl hw
      | ok w => simp [verifyCluster, hns, hp, hh, msgsOf, runCaptureVC, exitCode]
      | cpe w => simp [verifyCluster, hns, hp, hh, msgsOf, runCaptureVC, exitCode]
    | cpe o =>
      cases web with
      | exc => exact absurd rfl hw
      | ok w => simp [verifyCluster, hns, hp, hh, msgsOf, runCaptureVC, exitCode]
      | cpe w => simp [verifyCluster, hns, hp, hh, msgsOf, runCaptureVC, exitCode]
  · intro hpaOut metricsOut hho
    simp [vaHpaMetrics, hho]

/-- C7 witness: in the concrete HPA-less healthy environment, the FAIL
line is printed and the run still exits 0. -/
theorem hpa_absence_nonfatal_witness :
    Msg.mk Sev.fail "No HPA found." ∈ msgsOf (verifyCluster envNoHpa)
  ∧ exitCode (verifyCluster envNoHpa) = some 0 := by
  have h := hpa_absence_nonfatal envNoHpa
    (by decide) (by decide) (by decide) (by decide) (by decide)
  exact ⟨h.1, h.2.2.1⟩

/-- A filesystem operation a script may perform: a read-only
is-directory query, or a mutation of a path's directory bit (never
emitted by the locator, but expressible, so read-onlyness is a proved
property rather than a modelling assumption). -/
inductive FsOp where
  | read (p : FPath)
  | write (p : FPath)
deriving DecidableEq

/-- Whether an operation is a read. -/
def FsOp.isRead : FsOp → Bool
  | .read _ => true
  | .write _ => false

/-- Operational effect of one operation on the filesystem state: reads
leave it unchanged, a write marks the path as a directory. -/
def applyOp (fs : Fs) : FsOp → Fs
  | .read _ => fs
  | .write q => fun r => if r = q then true else fs r

/-- Effect of a sequence of operations. -/
def applyOps (fs : Fs) : List FsOp → Fs
  | [] => fs
  | op :: ops => applyOps (applyOp fs op) ops

/-- Instrumented `all((current / d).is_dir() for d in markers)`: the
short-circuiting conjunction together with the is-directory queries it
issues, in order. -/
def hasMarkersT (fs : Fs) (p : FPath) : List String → Bool × List FsOp
  | [] => (true, [])
  | d :: ds =>
    if fs (p ++ [d]) then
      let r := hasMarkersT fs p ds
      (r.1, FsOp.read (p ++ [d]) :: r.2)
    else (false, [FsOp.read (p ++ [d])])

/-- Instrumented root locator: same walk as `locateRoot`, also
returning the full trace of filesystem operations performed. -/
def locateRootT (ms : List String) (fs : Fs) (p : FPath) : Option FPath × List FsOp :=
  let q := hasMarkersT fs p ms
  if q.1 then (some p, q.2)
  else
    match p with
    | [] => (none, q.2)
    | a :: rest =>
      let r := locateRootT ms fs ((a :: rest).dropLast)
      (r.1, q.2 ++ r.2)
termination_by p.length
decreasing_by
  simp [List.length_dropLast]

/-- The instrumented marker test decides the same condition. -/
theorem hasMarkersT_fst (fs : Fs) (p : FPath) :
    ∀ ms : List String, (hasMarkersT fs p ms).1 = hasMarkers fs ms p
  | [] => rfl
  | d :: ds => by
    cases h : fs (p ++ [d]) with
    | true => simp [hasMarkersT, hasMarkers, h, hasMarkersT_fst fs p ds]
    | false => simp [hasMarkersT, hasMarkers, h]

/-- The marker test only reads. -/
theorem hasMarkersT_reads (fs : Fs) (p : FPath) :
    ∀ ms : List String, ((hasMarkersT fs p ms).2).all FsOp.isRead = true
  | [] => rfl
  | d :: ds => by
    cases h : fs (p ++ [d]) with
    | true => simp [hasMarkersT, h, FsOp.isRead, hasMarkersT_reads fs p ds]
    | false => simp [hasMarkersT, h, FsOp.isRead]

/-- A sequence of reads leaves the filesystem state untouched. -/
theorem applyOps_reads (fs : Fs) :
    ∀ ops : List FsOp, ops.all FsOp.isRead = true → applyOps fs ops = fs
  | [], _ => rfl
  | op :: ops, h => by
    cases op with
    | read q =>
      have h2 : ops.all FsOp.isRead = true := by
        simpa [FsOp.isRead] using h
      simpa [applyOps, applyOp] using applyOps_reads fs ops h2
    | write q => simp [FsOp.isRead] at h

/-- The locator's whole trace consists of reads. -/
theorem locateRootT_reads (ms : List String) (fs : Fs) :
    ∀ n (p : FPath), p.length = n →
      ((locateRootT ms fs p).2).all FsOp.isRead = true := by
  intro n
  induction n using Nat.strong_induction_on with
  | _ n ih =>
    intro p hp
    rw [locateRootT.eq_def]
    cases hq : (hasMarkersT fs p ms).1 with
    | true => simp [hq, hasMarkersT_reads]
    | false =>
      cases p with
      | nil => simp [hq, hasMarkersT_reads]
      | cons a rest =>
        have hrec := ih rest.length (by simp at hp; omega)
          ((a :: rest).dropLast) (by simp [List.length_dropLast])
        simp [hq, List.all_append, hasMarkersT_reads, hrec]

/-- The instrumented locator computes the same answer as the plain
embedding of `find_project_root`. -/
theorem locateRootT_fst (ms : List String) (fs : Fs) :
    ∀ n (p : FPath), p.length = n →
      (locateRootT ms fs p).1 = locateRoot ms fs p := by
  intro n
  induction n using Nat.strong_induction_on with
  | _ n ih =>
    intro p hp
    rw [locateRootT.eq_def, locateRoot.eq_def]
    cases hq : hasMarkers fs ms p with
    | true => simp [hasMarkersT_fst, hq]
    | false =>
      cases p with
      | nil => simp [hasMarkersT_fst, hq]
      | cons a rest =>
        have hrec := ih rest.length (by simp at hp; omega)
          ((a :: rest).dropLast) (by simp [List.length_dropLast])
        simp [hasMarkersT_fst, hq, hrec]

/-- C8: `find_project_root` is deterministic and side-effect-free: its
operation trace contains only read-only queries, running it leaves the
filesystem state exactly as found, its traced run agrees with the plain
function of the state, and a second run from the post-state returns the
identical result and trace. -/
theorem find_project_root_readonly_deterministic (fs : Fs) (p : FPath) :
    ((locateRootT deployMarkers fs p).2).all FsOp.isRead = true
  ∧ applyOps fs (locateRootT deployMarkers fs p).2 = fs
  ∧ (locateRootT deployMarkers fs p).1 = findProjectRoot fs p
  ∧ locateRootT deployMarkers (applyOps fs (locateRootT deployMarkers fs p).2) p
      = locateRootT deployMarkers fs p := by
  have h1 := locateRootT_reads deployMarkers fs p.length p rfl
  have h2 := applyOps_reads fs _ h1
  exact ⟨h1, h2, locateRootT_fst deployMarkers fs p.length p rfl, by rw [h2]⟩
